import Mathlib

/-!
Verification of the `Literal` tensor-literal value type from
`lazy_tensor_core/lazy_tensors/literal.cc`.

The file embeds the class shallowly: the constructor and the two const
methods become pure Lean functions.  Each operation additionally returns the
ordered list of its observable events (storage allocation, structural-hash
computation, fatal `CHECK` abort) so that ordering properties of the guards
can be stated.  A `CHECK` failure is modelled as an `abort` event together
with an absent (`none`) result, since the C++ macro terminates the process
and never returns.

The collaborators declared in headers outside the provided sources
(`lazy_tensors::Shape`, `ShapeUtil::Hash`, `util::ToVector`, `at::empty`)
are modelled from the specification, as noted on each definition.
-/

namespace lazy_tensors

/-- Modelled from the spec: `ShapeDescriptor` (`lazy_tensors::Shape`, declared
in `lazy_tensors/shape.h`, which is not among the provided sources).  A shape
is either a non-composite array shape carrying an element scalar-type tag and
an ordered sequence of per-dimension sizes, or a composite/tuple shape
aggregating sub-shapes. -/
inductive Shape where
  | array (scalarType : Nat) (dimSizes : List Nat) : Shape
  | tuple (elements : List Shape) : Shape

/-- Embeds `Shape::IsTuple()`: true exactly on composite/tuple shapes. -/
def Shape.IsTuple : Shape → Bool
  | .array _ _ => false
  | .tuple _ => true

/-- Embeds `Shape::sizes()`: the ordered per-dimension size sequence of a
non-composite shape.  The guarded code never calls it on a tuple shape; the
tuple case returns the empty sequence. -/
def Shape.sizes : Shape → List Nat
  | .array _ dimSizes => dimSizes
  | .tuple _ => []

/-- Embeds `Shape::scalar_type()`: the element scalar-type tag of a
non-composite shape.  The guarded code never calls it on a tuple shape; the
tuple case returns the tag 0. -/
def Shape.scalar_type : Shape → Nat
  | .array scalarType _ => scalarType
  | .tuple _ => 0

/-- The rank of a shape descriptor: the number of its dimensions. -/
def Shape.rank (s : Shape) : Nat := s.sizes.length

/-- Modelled from the spec: `ShapeUtil::Hash` (declared in
`lazy_tensors/shape_util.h`, not among the provided sources), the external
structural hashing primitive.  A deterministic pure function of the shape
descriptor only: rank, dimension sizes and scalar type. -/
def ShapeUtil.Hash : Shape → Nat
  | .array scalarType dimSizes =>
      dimSizes.foldl (fun h d => h * 31 + d) (scalarType * 131 + dimSizes.length)
  | .tuple elements => hashList elements
where
  /-- Structural hash of the sub-shape list of a composite shape. -/
  hashList : List Shape → Nat
  | [] => 7
  | s :: rest => ShapeUtil.Hash s * 31 + hashList rest

/-- Modelled from the spec: `util::ToVector<int64_t>` (declared in
`lazy_tensors/computation_client/util.h`, not among the provided sources),
the dimension-to-sequence conversion.  It converts the size sequence to a
vector of the same elements in the same order. -/
def util.ToVector (xs : List Nat) : List Nat := xs

/-- Modelled from the spec: the uninitialized, densely packed, owned storage
block returned by the storage allocator.  Its element type and total element
count are determined solely by the allocator's inputs, recorded here as the
scalar-type tag and the dimension sequence passed to the allocation call. -/
structure Storage where
  scalarType : Nat
  dims : List Nat
  deriving DecidableEq, Repr

/-- The total element count of a storage block: the product of the dimension
sizes it was allocated with. -/
def Storage.elementCount (s : Storage) : Nat := s.dims.prod

/-- Modelled from the spec: `at::empty(dimensions, options)`, the storage
allocator.  Given a dimension sequence and a scalar-type tag it returns an
uninitialized owned storage block of that element type holding the product
of the dimensions many elements. -/
def at_empty (dims : List Nat) (scalarType : Nat) : Storage :=
  { scalarType := scalarType, dims := dims }

/-- The observable events of the embedded operations: a storage allocation
with the dimensions and scalar type passed to the allocator, a computation
of the structural hash, and a fatal `CHECK` abort. -/
inductive Event where
  | alloc (dims : List Nat) (scalarType : Nat) : Event
  | hashComputed (value : Nat) : Event
  | abort : Event
  deriving DecidableEq, Repr

/-- Embeds `class Literal`: a value owning a shape descriptor (`shape_`) and
a typed storage block (`value_`). -/
structure Literal where
  shape_ : Shape
  value_ : Storage

/-- Embeds `Literal::Literal(const Shape& shape)`.  The member initializer
copies `shape` into `shape_`; the body then runs `CHECK(!shape_.IsTuple())`,
which aborts on a composite/tuple shape before anything else executes;
otherwise `util::ToVector<int64_t>(shape.sizes())` derives the dimension
sequence and `at::empty(dimensions, options)` allocates `value_`.  Returns
the ordered event trace together with the constructed value (`none` when the
`CHECK` aborts). -/
def Literal.construct (shape : Shape) : List Event × Option Literal :=
  if shape.IsTuple then
    ([Event.abort], none)
  else
    let dimensions := util.ToVector shape.sizes
    ([Event.alloc dimensions shape.scalar_type],
      some { shape_ := shape, value_ := at_empty dimensions shape.scalar_type })

/-- Embeds `const Shape& Literal::shape() const`.  The const method returns
the owned `shape_`; its post-state is returned explicitly so that the frame
property (the object is unchanged by the call) is statable. -/
def Literal.shape (l : Literal) : Shape × Literal := (l.shape_, l)

/-- Embeds `size_t Literal::Hash() const`.  The body first computes
`hash_value = ShapeUtil::Hash(shape())`, then runs `CHECK(!shape().IsTuple())`,
which aborts on a composite/tuple shape, and only then returns `hash_value`.
Returns the ordered event trace, the result (`none` when the `CHECK` aborts),
and the post-state of the object. -/
def Literal.Hash (l : Literal) : List Event × Option Nat × Literal :=
  let hash_value := ShapeUtil.Hash (l.shape).1
  if ((l.shape).1).IsTuple then
    ([Event.hashComputed hash_value, Event.abort], none, l)
  else
    ([Event.hashComputed hash_value], some hash_value, l)

/-- A sample value owning a composite/tuple shape, for concrete evaluation.
Such a value cannot come from the guarded constructor; it represents an
object whose owned shape is composite. -/
def sampleTupleLit : Literal :=
  { shape_ := Shape.tuple [], value_ := { scalarType := 0, dims := [] } }

/-- A sample value owning a non-composite shape, for concrete evaluation. -/
def sampleArrayLit : Literal :=
  { shape_ := Shape.array 6 [4], value_ := { scalarType := 6, dims := [4] } }

/-- A second sample value with the same owned shape as `sampleArrayLit` but a
different storage block, for concrete evaluation. -/
def sampleArrayLit2 : Literal :=
  { shape_ := Shape.array 6 [4], value_ := { scalarType := 99, dims := [7] } }

/-- C1: for every non-composite (non-tuple) shape `s`, constructing a
`Literal` from `s` and then calling `shape()` returns a descriptor equal to
`s`: the constructor stores the given shape unchanged. -/
theorem construct_preserves_shape (s : Shape) (h : s.IsTuple = false) :
    ∃ l : Literal, (Literal.construct s).2 = some l ∧ (l.shape).1 = s := by
  refine ⟨{ shape_ := s,
            value_ := at_empty (util.ToVector s.sizes) s.scalar_type }, ?_, rfl⟩
  simp [Literal.construct, h]

/-- C1 witness: the shape `array 6 [4]` is non-composite and construction
from it preserves it. -/
theorem construct_preserves_shape_witness :
    (Shape.array 6 [4]).IsTuple = false ∧
    ∃ l : Literal, (Literal.construct (Shape.array 6 [4])).2 = some l ∧
      (l.shape).1 = Shape.array 6 [4] :=
  ⟨rfl, construct_preserves_shape (Shape.array 6 [4]) rfl⟩

/-- C2: for every pair of non-composite shapes agreeing in rank, dimension
sizes and scalar type, the values constructed from them hash identically:
the hash is a function of the shape descriptor only. -/
theorem construct_hash_structural (s1 s2 : Shape) (l1 l2 : Literal)
    (h1t : s1.IsTuple = false) (h2t : s2.IsTuple = false)
    (hrank : s1.rank = s2.rank) (hsizes : s1.sizes = s2.sizes)
    (hty : s1.scalar_type = s2.scalar_type)
    (h1 : (Literal.construct s1).2 = some l1)
    (h2 : (Literal.construct s2).2 = some l2) :
    (l1.Hash).2.1 = (l2.Hash).2.1 := by
  cases s1 with
  | tuple es => simp [Shape.IsTuple] at h1t
  | array t1 d1 =>
    cases s2 with
    | tuple es => simp [Shape.IsTuple] at h2t
    | array t2 d2 =>
      simp only [Shape.sizes] at hsizes
      simp only [Shape.scalar_type] at hty
      subst hsizes
      subst hty
      simp [Literal.construct, Shape.IsTuple] at h1 h2
      subst h1
      subst h2
      rfl

/-- C2 witness: two values constructed from the shape `array 1 [2, 3]`
(identical rank, sizes and scalar type) hash identically. -/
theorem construct_hash_structural_witness :
    (Shape.array 1 [2, 3]).IsTuple = false ∧
    ((({ shape_ := Shape.array 1 [2, 3],
         value_ := { scalarType := 1, dims := [2, 3] } } : Literal).Hash).2.1 =
      (({ shape_ := Shape.array 1 [2, 3],
          value_ := { scalarType := 1, dims := [2, 3] } } : Literal).Hash).2.1) :=
  ⟨rfl, construct_hash_structural (Shape.array 1 [2, 3]) (Shape.array 1 [2, 3])
    { shape_ := Shape.array 1 [2, 3], value_ := { scalarType := 1, dims := [2, 3] } }
    { shape_ := Shape.array 1 [2, 3], value_ := { scalarType := 1, dims := [2, 3] } }
    rfl rfl rfl rfl rfl rfl rfl⟩

/-- C3: constructing from a composite/tuple shape triggers the fatal
invariant violation (an abort event, no value returned); for every non-tuple
shape the guard passes and construction yields a value. -/
theorem construct_tuple_guard (s : Shape) :
    (s.IsTuple = true → Literal.construct s = ([Event.abort], none)) ∧
    (s.IsTuple = false → ∃ l, (Literal.construct s).2 = some l) := by
  constructor
  · intro h
    simp [Literal.construct, h]
  · intro h
    refine ⟨{ shape_ := s,
              value_ := at_empty (util.ToVector s.sizes) s.scalar_type }, ?_⟩
    simp [Literal.construct, h]

/-- C3 witness: construction from the tuple shape `tuple []` aborts with no
value, and construction from the non-tuple shape `array 6 [2, 3]` yields a
value. -/
theorem construct_tuple_guard_witness :
    Literal.construct (Shape.tuple []) = ([Event.abort], none) ∧
    ∃ l, (Literal.construct (Shape.array 6 [2, 3])).2 = some l :=
  ⟨(construct_tuple_guard (Shape.tuple [])).1 rfl,
    (construct_tuple_guard (Shape.array 6 [2, 3])).2 rfl⟩

/-- C4: calling Hash on a value whose owned shape is composite/tuple
triggers the same fatal invariant violation: the call never returns a result
and its trace contains the fatal abort; on every value with a non-tuple
shape Hash returns a value. -/
theorem hash_tuple_guard (l : Literal) :
    ((l.shape_).IsTuple = true →
      (l.Hash).2.1 = none ∧ Event.abort ∈ (l.Hash).1) ∧
    ((l.shape_).IsTuple = false → ∃ h, (l.Hash).2.1 = some h) := by
  constructor
  · intro h
    simp [Literal.Hash, Literal.shape, h]
  · intro h
    exact ⟨ShapeUtil.Hash l.shape_, by simp [Literal.Hash, Literal.shape, h]⟩

/-- C4 witness: Hash on the sample tuple-shaped value aborts with no result,
and Hash on the sample array-shaped value returns a value. -/
theorem hash_tuple_guard_witness :
    ((sampleTupleLit.Hash).2.1 = none ∧ Event.abort ∈ (sampleTupleLit.Hash).1) ∧
    ∃ h, (sampleArrayLit.Hash).2.1 = some h :=
  ⟨(hash_tuple_guard sampleTupleLit).1 rfl,
    (hash_tuple_guard sampleArrayLit).2 rfl⟩

/-- C5: construction from a non-tuple shape performs exactly one allocation;
the dimension sequence passed to the allocator is exactly the ordered size
sequence derived from the shape, the element type is the shape's scalar
type, and the resulting storage block's element count is the product of the
dimension sizes. -/
theorem construct_allocation (s : Shape) (h : s.IsTuple = false) :
    (Literal.construct s).1 =
      [Event.alloc (util.ToVector s.sizes) s.scalar_type] ∧
    util.ToVector s.sizes = s.sizes ∧
    ∃ l, (Literal.construct s).2 = some l ∧
      l.value_.scalarType = s.scalar_type ∧
      l.value_.dims = s.sizes ∧
      l.value_.elementCount = s.sizes.prod := by
  refine ⟨by simp [Literal.construct, h], rfl,
    { shape_ := s, value_ := at_empty (util.ToVector s.sizes) s.scalar_type },
    ?_, rfl, rfl, rfl⟩
  simp [Literal.construct, h]

/-- C5 witness: construction from `array 6 [2, 3]` allocates once, passing
dimensions `[2, 3]` and scalar type `6`, and the storage holds `6` elements. -/
theorem construct_allocation_witness :
    (Shape.array 6 [2, 3]).IsTuple = false ∧
    ((Literal.construct (Shape.array 6 [2, 3])).1 =
        [Event.alloc (util.ToVector (Shape.array 6 [2, 3]).sizes)
          (Shape.array 6 [2, 3]).scalar_type] ∧
      util.ToVector (Shape.array 6 [2, 3]).sizes = (Shape.array 6 [2, 3]).sizes ∧
      ∃ l, (Literal.construct (Shape.array 6 [2, 3])).2 = some l ∧
        l.value_.scalarType = (Shape.array 6 [2, 3]).scalar_type ∧
        l.value_.dims = (Shape.array 6 [2, 3]).sizes ∧
        l.value_.elementCount = (Shape.array 6 [2, 3]).sizes.prod) :=
  ⟨rfl, construct_allocation (Shape.array 6 [2, 3]) rfl⟩

/-- C6: Hash is deterministic and a function of the shape descriptor only:
any two values with the same owned shape descriptor, regardless of their
storage blocks, yield the same Hash result; in particular repeated calls on
the same value return the same value. -/
theorem hash_deterministic (l1 l2 : Literal) (h : l1.shape_ = l2.shape_) :
    (l1.Hash).2.1 = (l2.Hash).2.1 := by
  cases hIf : (l2.shape_).IsTuple <;>
    simp [Literal.Hash, Literal.shape, h, hIf]

/-- C6 witness: the two sample array-shaped values share a shape descriptor
but differ in storage, and their Hash results agree. -/
theorem hash_deterministic_witness :
    sampleArrayLit.shape_ = sampleArrayLit2.shape_ ∧
    (sampleArrayLit.Hash).2.1 = (sampleArrayLit2.Hash).2.1 :=
  ⟨rfl, hash_deterministic sampleArrayLit sampleArrayLit2 rfl⟩

/-- C7: the accessors shape() and Hash() leave the value unchanged: the
post-state after either call equals the pre-state (no mutation). -/
theorem accessors_no_mutation (l : Literal) :
    (l.shape).2 = l ∧ (l.Hash).2.2 = l := by
  refine ⟨rfl, ?_⟩
  cases hIf : (l.shape_).IsTuple <;> simp [Literal.Hash, Literal.shape, hIf]

/-- C8: whenever Hash returns, its result equals the external structural
hashing primitive applied directly to the owned shape descriptor; the
implementation adds nothing of its own. -/
theorem hash_equals_shapeutil_hash (l : Literal)
    (h : (l.shape_).IsTuple = false) :
    (l.Hash).2.1 = some (ShapeUtil.Hash (l.shape).1) := by
  simp [Literal.Hash, Literal.shape, h]

/-- C8 witness: Hash of the sample array-shaped value equals the structural
hash of its owned shape. -/
theorem hash_equals_shapeutil_hash_witness :
    (sampleArrayLit.shape_).IsTuple = false ∧
    (sampleArrayLit.Hash).2.1 = some (ShapeUtil.Hash (sampleArrayLit.shape).1) :=
  ⟨rfl, hash_equals_shapeutil_hash sampleArrayLit rfl⟩

/-- C9: on a composite/tuple shape the constructor's fatal guard fires
before any allocation is attempted: the event trace is the abort alone and
contains no allocation event. -/
theorem construct_tuple_no_alloc (s : Shape) (h : s.IsTuple = true) :
    (Literal.construct s).1 = [Event.abort] ∧
    ∀ dims ty, Event.alloc dims ty ∉ (Literal.construct s).1 := by
  constructor
  · simp [Literal.construct, h]
  · intro dims ty
    simp [Literal.construct, h]

/-- C9 witness: construction from `tuple []` traces only the abort and in
particular never emits the allocation of dimensions `[4]` at scalar type
`6`. -/
theorem construct_tuple_no_alloc_witness :
    (Shape.tuple []).IsTuple = true ∧
    (Literal.construct (Shape.tuple [])).1 = [Event.abort] ∧
    Event.alloc [4] 6 ∉ (Literal.construct (Shape.tuple [])).1 :=
  ⟨rfl, (construct_tuple_no_alloc (Shape.tuple []) rfl).1,
    (construct_tuple_no_alloc (Shape.tuple []) rfl).2 [4] 6⟩

/-- C10: in Hash the structural hash is computed before the tuple guard is
evaluated: on a value whose owned shape is a tuple, the trace records the
hash of that tuple shape first and only then the fatal abort. -/
theorem hash_computed_before_guard (l : Literal)
    (h : (l.shape_).IsTuple = true) :
    (l.Hash).1 =
      [Event.hashComputed (ShapeUtil.Hash l.shape_), Event.abort] := by
  simp [Literal.Hash, Literal.shape, h]

/-- C10 witness: Hash on the sample tuple-shaped value records the hash of
the tuple shape before the abort. -/
theorem hash_computed_before_guard_witness :
    (sampleTupleLit.shape_).IsTuple = true ∧
    (sampleTupleLit.Hash).1 =
      [Event.hashComputed (ShapeUtil.Hash sampleTupleLit.shape_), Event.abort] :=
  ⟨rfl, hash_computed_before_guard sampleTupleLit rfl⟩

end lazy_tensors
